import Mathlib

/-!
Verification of the batchy batch-accumulation engine (PaienNate/batchy).

The repository provides two engine variants:
* `BatcherInstance` (src/batcher.go): a lock-free ring-buffer intake queue
  drained by polling workers with a fixed flush timeout;
* `ChanBatcherInstance` (src/chan_batcher.go): a buffered-channel intake
  queue drained by workers whose flush timeout is recomputed after every
  flush by a jitter/desynchronization function `generateTimeout`.

Each Go worker is a sequential loop reacting to one of a few wakeup
sources per iteration (context cancellation, an arriving item, the flush
timer, an empty-queue poll).  We embed each worker body as a step
function from the current local buffer and the wakeup event to the
worker's reaction: the new buffer, the batches handed to the processor
during that iteration, the value the flush timer is reset to (if any),
and whether the worker returned.  Random jitter draws are supplied as
event parameters.  Whole executions are folds of the step function over
an event schedule.  Durations are modelled as non-negative nanosecond
counts (`Nat`); Go's integer division on non-negative `time.Duration`
values is `Nat` division.  The engine-level `Stop`/`Add` code paths are
embedded with explicit state and explicit Go-semantics outcomes
(a send on a closed channel or a close of a closed channel panics).
-/

/-- Configuration record of `BatchConfig` (src/batcher.go lines 46-57).
Numeric fields are Go ints / `time.Duration`, so `Int` here; the `Ctx`
field is omitted (it only selects a parent context). -/
structure BatchConfig where
  batchSize : Int
  poolSize : Int
  queueSize : Int
  timeout : Int
  deriving DecidableEq, Repr

/-- The package-level error values of src/batcher.go lines 14-18. -/
inductive ConstructError where
  | workerNotSet
  | invalidTimeout
  | processorNotSet
  deriving DecidableEq, Repr

/-- Embedding of the configuration normalization and validation performed
by `NewRingBatcher` (src/batcher.go lines 61-77): default the queue size
to `1000 * BatchSize` when it is zero, then reject `PoolSize <= 0`,
`Timeout == 0`, and a nil processor, in that order.  The processor being
nil is abstracted as a boolean since its code is opaque.  On success the
normalized configuration (the fields stored into the instance) is
returned. -/
def NewRingBatcher (processorIsNil : Bool) (cfg : BatchConfig) :
    Except ConstructError BatchConfig :=
  let cfg := if cfg.queueSize = 0 then
    { cfg with queueSize := 1000 * cfg.batchSize } else cfg
  if cfg.poolSize ≤ 0 then .error .workerNotSet
  else if cfg.timeout = 0 then .error .invalidTimeout
  else if processorIsNil then .error .processorNotSet
  else .ok cfg

/-- Embedding of the configuration normalization and validation performed
by `NewChanBatcher` (src/chan_batcher.go lines 24-43); the checks are
identical to `NewRingBatcher`, in the same order. -/
def NewChanBatcher (processorIsNil : Bool) (cfg : BatchConfig) :
    Except ConstructError BatchConfig :=
  let cfg := if cfg.queueSize = 0 then
    { cfg with queueSize := 1000 * cfg.batchSize } else cfg
  if cfg.poolSize ≤ 0 then .error .workerNotSet
  else if cfg.timeout = 0 then .error .invalidTimeout
  else if processorIsNil then .error .processorNotSet
  else .ok cfg

/-- Per-worker static data of `ChanBatcherInstance.worker`
(src/chan_batcher.go line 116): the worker index `id`, the instance's
`workerCount`, `itemLimit` and `timeout` (the latter in nanoseconds,
called `base` in the worker body). -/
structure ChanWorkerConfig where
  id : Nat
  workerCount : Nat
  itemLimit : Nat
  base : Nat
  deriving DecidableEq, Repr

/-- Embedding of the closure `generateTimeout` (src/chan_batcher.go
lines 120-129):

  offset      := Duration(id) * (base / Duration(workerCount+1))
  jitter      := rnd.Int63n(int64(base) / 10)       -- supplied as input
  batchFactor := Duration(batchSize) * (base / 10 / Duration(itemLimit))
  result      := base + offset + jitter - batchFactor

All divisions are Go integer divisions on non-negative values, i.e. `Nat`
floor division; the final subtraction can conceptually underflow, so the
result lives in `Int`. -/
def generateTimeout (cfg : ChanWorkerConfig) (jitter batchSize : Nat) : Int :=
  let offset : Nat := cfg.id * (cfg.base / (cfg.workerCount + 1))
  let batchFactor : Nat := batchSize * (cfg.base / 10 / cfg.itemLimit)
  (cfg.base : Int) + offset + jitter - batchFactor

/-- Two's-complement wrap of an unbounded integer into the int64 range
`[-2^63, 2^63)`, which is what every Go int64 arithmetic operation
produces on overflow. -/
def wrap64 (x : Int) : Int :=
  Int.emod (x + 2 ^ 63) (2 ^ 64) - 2 ^ 63

/-- Exact int64 semantics of the `generateTimeout` closure
(src/chan_batcher.go lines 120-129).  `time.Duration` is Go's int64:
every arithmetic operation wraps on overflow (two's complement), and
`rnd.Int63n(int64(base)/10)` panics when its argument is not positive,
i.e. whenever `base < 10` (nanoseconds).  Returns `none` for that panic
and otherwise `some` of the wrapped result of
`base + offset + jitter - batchFactor`, with each product and each
addition/subtraction wrapped individually in Go's evaluation order.
The divisions act on non-negative operands that fit in int64, where
Go's truncated division agrees with `Nat` division.  `generateTimeout`
above is the idealized unbounded-arithmetic reading of the same
expression; the two agree whenever no intermediate value overflows. -/
def generateTimeoutGo (cfg : ChanWorkerConfig) (jitter batchSize : Nat) :
    Option Int :=
  if cfg.base / 10 = 0 then none
  else
    let offset : Int := wrap64 ((cfg.id * (cfg.base / (cfg.workerCount + 1)) : Nat) : Int)
    let batchFactor : Int := wrap64 ((batchSize * (cfg.base / 10 / cfg.itemLimit) : Nat) : Int)
    some (wrap64 (wrap64 (wrap64 ((cfg.base : Int) + offset) + jitter) - batchFactor))

/-- The observable reaction of one worker-loop iteration: the buffer
after the iteration, the batches passed to the processor during it
(in order), the value the flush timer was reset to (if it was), and
whether the worker returned. -/
structure WorkerStepResult (α : Type) where
  buffer : List α
  flushed : List (List α)
  timerReset : Option Int
  done : Bool
  deriving DecidableEq, Repr

/-- Wakeup events of one iteration of `ChanBatcherInstance.worker`'s
select loop (src/chan_batcher.go lines 133-159).  `recv` and `timerFire`
carry the jitter value the iteration's `generateTimeout` call would draw
from `rnd`. -/
inductive ChanEvent (α : Type) where
  | ctxDone
  | recv (item : α) (jitter : Nat)
  | timerFire (jitter : Nat)
  deriving DecidableEq, Repr

/-- Embedding of one iteration of `ChanBatcherInstance.worker`
(src/chan_batcher.go lines 133-159):
* on `ctx.Done()`: flush the buffer if non-empty, return;
* on an item: append it; if the buffer has reached `itemLimit`, invoke
  the processor, recompute the timeout seeded by the flushed length
  (`generateTimeout(len(buffer))` is called before `buffer = buffer[:0]`),
  clear the buffer and reset the timer;
* on timer expiry: if the buffer is non-empty, flush it and reset the
  timer via `generateTimeout` seeded by the flushed length, else just
  reset the timer via `generateTimeout(0)`. -/
def chanWorkerStep (cfg : ChanWorkerConfig) (buffer : List α) :
    ChanEvent α → WorkerStepResult α
  | .ctxDone =>
      { buffer := buffer
        flushed := if 0 < buffer.length then [buffer] else []
        timerReset := none
        done := true }
  | .recv x j =>
      let buf := buffer ++ [x]
      if cfg.itemLimit ≤ buf.length then
        { buffer := []
          flushed := [buf]
          timerReset := some (generateTimeout cfg j buf.length)
          done := false }
      else
        { buffer := buf, flushed := [], timerReset := none, done := false }
  | .timerFire j =>
      if 0 < buffer.length then
        { buffer := []
          flushed := [buffer]
          timerReset := some (generateTimeout cfg j buffer.length)
          done := false }
      else
        { buffer := buffer
          flushed := []
          timerReset := some (generateTimeout cfg j 0)
          done := false }

/-- Per-worker static data of `BatcherInstance.worker`
(src/batcher.go lines 110-113): the instance's `itemLimit` and fixed
`timeout` in nanoseconds. -/
structure RingWorkerConfig where
  itemLimit : Nat
  base : Nat
  deriving DecidableEq, Repr

/-- Wakeup events of one iteration of `BatcherInstance.worker`'s loop
(src/batcher.go lines 115-166): the `stopped` flag observed true at the
loop head; `ctx.Done()` in the select; timer expiry; a successful
dequeue; an empty dequeue followed by observing cancellation; an empty
dequeue followed by the 30ms sleep. -/
inductive RingEvent (α : Type) where
  | stopObserved
  | ctxDone
  | timerFire
  | dequeueOk (item : α)
  | dequeueEmptyCtxDone
  | dequeueEmptySleep
  deriving DecidableEq, Repr

/-- Embedding of one iteration of `BatcherInstance.worker`
(src/batcher.go lines 115-166):
* `stopped` observed true, `ctx.Done()`, or empty-queue-then-cancelled:
  flush the buffer if non-empty, return;
* timer expiry: flush if non-empty; reset the timer to the fixed
  `b.timeout` in either case;
* successful dequeue: append; if the buffer has reached `itemLimit`,
  flush, clear, and reset the timer to the fixed `b.timeout`;
* empty dequeue without cancellation: sleep and continue unchanged. -/
def ringWorkerStep (cfg : RingWorkerConfig) (buffer : List α) :
    RingEvent α → WorkerStepResult α
  | .stopObserved =>
      { buffer := buffer
        flushed := if 0 < buffer.length then [buffer] else []
        timerReset := none
        done := true }
  | .ctxDone =>
      { buffer := buffer
        flushed := if 0 < buffer.length then [buffer] else []
        timerReset := none
        done := true }
  | .timerFire =>
      if 0 < buffer.length then
        { buffer := []
          flushed := [buffer]
          timerReset := some (cfg.base : Int)
          done := false }
      else
        { buffer := buffer
          flushed := []
          timerReset := some (cfg.base : Int)
          done := false }
  | .dequeueOk x =>
      let buf := buffer ++ [x]
      if cfg.itemLimit ≤ buf.length then
        { buffer := []
          flushed := [buf]
          timerReset := some (cfg.base : Int)
          done := false }
      else
        { buffer := buf, flushed := [], timerReset := none, done := false }
  | .dequeueEmptyCtxDone =>
      { buffer := buffer
        flushed := if 0 < buffer.length then [buffer] else []
        timerReset := none
        done := true }
  | .dequeueEmptySleep =>
      { buffer := buffer, flushed := [], timerReset := none, done := false }

/-- Execution of `ChanBatcherInstance.worker` over a schedule of wakeup
events, starting from a given buffer: returns the concatenation of all
batches handed to the processor, the final buffer, and whether the
worker returned (further events are not consumed after it returns). -/
def chanWorkerRun (cfg : ChanWorkerConfig) (buffer : List α) :
    List (ChanEvent α) → List (List α) × List α × Bool
  | [] => ([], buffer, false)
  | e :: es =>
      let s := chanWorkerStep cfg buffer e
      if s.done then (s.flushed, s.buffer, true)
      else
        let r := chanWorkerRun cfg s.buffer es
        (s.flushed ++ r.1, r.2.1, r.2.2)

/-- Execution of `BatcherInstance.worker` over a schedule of wakeup
events, analogous to `chanWorkerRun`. -/
def ringWorkerRun (cfg : RingWorkerConfig) (buffer : List α) :
    List (RingEvent α) → List (List α) × List α × Bool
  | [] => ([], buffer, false)
  | e :: es =>
      let s := ringWorkerStep cfg buffer e
      if s.done then (s.flushed, s.buffer, true)
      else
        let r := ringWorkerRun cfg s.buffer es
        (s.flushed ++ r.1, r.2.1, r.2.2)

/-- Go runtime panics relevant to this code: sending on a closed channel
and closing an already-closed channel both panic. -/
inductive GoPanic where
  | closeOfClosedChannel
  | sendOnClosedChannel
  deriving DecidableEq, Repr

/-- Engine-level state of a `ChanBatcherInstance` relevant to `Stop` and
`Add`: whether the context has been cancelled, whether the ants pool has
been released, and whether the queue channel has been closed. -/
structure ChanEngineState where
  ctxCancelled : Bool
  poolReleased : Bool
  queueClosed : Bool
  deriving DecidableEq, Repr

/-- Embedding of `ChanBatcherInstance.Stop` (src/chan_batcher.go lines
163-167): `c.cancel()`, then `c.workers.Release()`, then
`close(c.queue)`.  In Go, `close` on an already-closed channel panics;
none of the three calls waits for the workers to exit (`ants.Release`
marks the pool closed without joining running tasks). -/
def chanStop (e : ChanEngineState) : Except GoPanic ChanEngineState :=
  let e1 := { e with ctxCancelled := true }
  let e2 := { e1 with poolReleased := true }
  if e2.queueClosed then .error .closeOfClosedChannel
  else .ok { e2 with queueClosed := true }

/-- Engine-level state of a `BatcherInstance` relevant to `Stop` and
`Add`: the `stopped` atomic flag, pool release, context cancellation. -/
structure RingEngineState where
  stopped : Bool
  poolReleased : Bool
  ctxCancelled : Bool
  deriving DecidableEq, Repr

/-- Embedding of `BatcherInstance.Stop` (src/batcher.go lines 193-197):
`b.stopped.Store(true)`, `b.ants.Release()`, `b.cancel()`.  All three
are non-blocking and idempotent, and none waits for workers to exit. -/
def ringStop (e : RingEngineState) : RingEngineState :=
  { e with stopped := true, poolReleased := true, ctxCancelled := true }

/-- The buffered intake channel of a `ChanBatcherInstance`: its pending
items, its capacity, and whether it has been closed. -/
structure ChanQueue (α : Type) where
  items : List α
  capacity : Nat
  closed : Bool
  deriving DecidableEq, Repr

/-- Which branch a Go `select` statement commits to when several are
ready; Go chooses uniformly at random among the ready branches. -/
inductive SelectChoice where
  | ctxBranch
  | sendBranch
  deriving DecidableEq, Repr

/-- Outcome of `ChanBatcherInstance.Add`. -/
inductive ChanAddResult (α : Type) where
  | errStopped
  | enqueued (queue : ChanQueue α)
  | panicked (p : GoPanic)
  | blocked
  deriving DecidableEq, Repr

/-- Embedding of `ChanBatcherInstance.Add` (src/chan_batcher.go lines
73-80): a `select` between `<-c.ctx.Done()` (returning the stopped
error) and `c.queue <- item`.  Go `select` semantics: a receive on a
done context is ready once the context is cancelled; a send is ready
when the channel has free capacity, and is also "ready" when it is
closed, in which case executing it panics.  When both branches are
ready, Go picks one at random, modelled by the `choice` input; when
neither is ready the caller blocks. -/
def chanAdd (ctxCancelled : Bool) (q : ChanQueue α) (item : α)
    (choice : SelectChoice) : ChanAddResult α :=
  let canCtx := ctxCancelled
  let canSend := q.closed || q.items.length < q.capacity
  let pick : SelectChoice :=
    if canCtx && canSend then choice
    else if canCtx then .ctxBranch
    else .sendBranch
  if !canCtx && !canSend then .blocked
  else match pick with
    | .ctxBranch => .errStopped
    | .sendBranch =>
        if q.closed then .panicked .sendOnClosedChannel
        else .enqueued { q with items := q.items ++ [item] }

/-- Embedding of `BatcherInstance.Add` (src/batcher.go lines 170-190):
return the stopped error when `b.stopped` is set; otherwise enqueue into
the ring buffer (the surrounding backoff retry loop is not needed when
the queue has space). -/
def ringAdd (stopped : Bool) (q : List α) (item : α) :
    Except Unit (List α) :=
  if stopped then .error () else .ok (q ++ [item])

/-- State of a one-worker `ChanBatcherInstance` system used to analyse
the interleaving of `Stop` with the worker loop: the worker's local
buffer, whether the worker has returned, the engine flags, whether
`Stop()` has returned to its caller, and the log of processor
invocations, each tagged with whether `Stop()` had already returned when
the processor was invoked. -/
structure ChanSystemState (α : Type) where
  buffer : List α
  workerDone : Bool
  ctxCancelled : Bool
  queueClosed : Bool
  stopReturned : Bool
  flushes : List (List α × Bool)
  deriving DecidableEq, Repr

/-- Apply one worker-loop iteration inside the system state, logging
each processor invocation together with the current value of
`stopReturned`. -/
def chanSystemWorker (cfg : ChanWorkerConfig) (s : ChanSystemState α)
    (e : ChanEvent α) : ChanSystemState α :=
  let r := chanWorkerStep cfg s.buffer e
  { s with buffer := r.buffer
           workerDone := r.done
           flushes := s.flushes ++ r.flushed.map (fun b => (b, s.stopReturned)) }

/-- Interleaved system events: a call to `Stop()` running to completion,
or one worker-loop iteration.  `Stop()` completes in a single step
because its body (src/chan_batcher.go lines 163-167) performs no
operation that waits for the worker: `cancel`, `Release` and `close`
all return immediately.  Worker iterations therefore remain possible
after `stopReturned` is set. -/
inductive ChanSysEvent (α : Type) where
  | stopCall
  | workerRecv (item : α) (jitter : Nat)
  | workerTimerFire (jitter : Nat)
  | workerCtxDone
  deriving DecidableEq, Repr

/-- One system transition.  A worker event is a no-op once the worker
has returned, and the `ctx.Done()` branch can only fire after the
context has been cancelled. -/
def chanSystemStep (cfg : ChanWorkerConfig) (s : ChanSystemState α) :
    ChanSysEvent α → ChanSystemState α
  | .stopCall =>
      { s with ctxCancelled := true, queueClosed := true, stopReturned := true }
  | .workerRecv x j =>
      if s.workerDone then s else chanSystemWorker cfg s (.recv x j)
  | .workerTimerFire j =>
      if s.workerDone then s else chanSystemWorker cfg s (.timerFire j)
  | .workerCtxDone =>
      if s.workerDone || !s.ctxCancelled then s
      else chanSystemWorker cfg s .ctxDone

/-- Run the system over a schedule of interleaved events. -/
def chanSystemRun (cfg : ChanWorkerConfig) (s : ChanSystemState α) :
    List (ChanSysEvent α) → ChanSystemState α
  | [] => s
  | e :: es => chanSystemRun cfg (chanSystemStep cfg s e) es

/-! Theorems. -/

/-- C4 counterexample: the configuration with `BatchSize = 0` (not > 0)
and `Timeout = -5` (negative) passes validation in both constructors and
construction succeeds, although the claim requires a descriptive error
whenever the batch-size threshold is not positive or the flush timeout
is zero or negative. -/
theorem c4_construction_counterexample :
    NewRingBatcher false ⟨0, 1, 7, -5⟩ = .ok ⟨0, 1, 7, -5⟩
    ∧ NewChanBatcher false ⟨0, 1, 7, -5⟩ = .ok ⟨0, 1, 7, -5⟩ := by
  constructor <;> rfl

/-- C4 (amended): both constructors succeed exactly when the pool size
is positive, the timeout is non-zero (a negative timeout is accepted),
and the processor is non-nil; the batch size is never validated. -/
theorem c4_construction_validation (processorIsNil : Bool) (cfg : BatchConfig) :
    ((∃ c, NewRingBatcher processorIsNil cfg = .ok c)
      ↔ 0 < cfg.poolSize ∧ cfg.timeout ≠ 0 ∧ processorIsNil = false)
    ∧ ((∃ c, NewChanBatcher processorIsNil cfg = .ok c)
      ↔ 0 < cfg.poolSize ∧ cfg.timeout ≠ 0 ∧ processorIsNil = false) := by
  obtain ⟨bs, ps, qs, t⟩ := cfg
  constructor <;>
  · simp only [NewRingBatcher, NewChanBatcher]
    split_ifs <;> simp_all

/-- C9: whenever construction succeeds, the stored intake-queue capacity
is `1000 * BatchSize` if the configured `QueueSize` was zero, and the
configured `QueueSize` unchanged otherwise, in both constructors. -/
theorem c9_queue_size_default (processorIsNil : Bool) (cfg : BatchConfig) :
    (∀ c, NewRingBatcher processorIsNil cfg = .ok c →
      c.queueSize = if cfg.queueSize = 0 then 1000 * cfg.batchSize else cfg.queueSize)
    ∧ (∀ c, NewChanBatcher processorIsNil cfg = .ok c →
      c.queueSize = if cfg.queueSize = 0 then 1000 * cfg.batchSize else cfg.queueSize) := by
  obtain ⟨bs, ps, qs, t⟩ := cfg
  constructor <;>
  · intro c hc
    simp only [NewRingBatcher, NewChanBatcher] at hc
    split_ifs at hc <;> simp_all <;> simp [← hc]

/-- C9 witness: a configuration with `QueueSize = 0` and `BatchSize = 2`
is stored with queue capacity `2000`. -/
theorem c9_queue_size_default_witness :
    NewRingBatcher false ⟨2, 1, 0, 5⟩ = .ok ⟨2, 1, 2000, 5⟩
    ∧ (2000 : Int) = if (0 : Int) = 0 then 1000 * 2 else 0 :=
  ⟨rfl, (c9_queue_size_default false ⟨2, 1, 0, 5⟩).1 ⟨2, 1, 2000, 5⟩ rfl⟩

/-- C7: on the stop/cancellation signal, a worker of either variant
flushes its buffer to the processor exactly once when the buffer is
non-empty (and not at all when it is empty) and then returns, consuming
no further events.  For the ring variant this holds on all three of its
stop paths: the `stopped` flag, `ctx.Done()` in the select, and
cancellation observed after an empty poll. -/
theorem c7_drain_on_stop_signal {α : Type} (ccfg : ChanWorkerConfig)
    (rcfg : RingWorkerConfig) (cbuf rbuf : List α)
    (ces : List (ChanEvent α)) (res : List (RingEvent α)) :
    chanWorkerRun ccfg cbuf (.ctxDone :: ces)
      = ((if 0 < cbuf.length then [cbuf] else []), cbuf, true)
    ∧ ringWorkerRun rcfg rbuf (.ctxDone :: res)
      = ((if 0 < rbuf.length then [rbuf] else []), rbuf, true)
    ∧ ringWorkerRun rcfg rbuf (.stopObserved :: res)
      = ((if 0 < rbuf.length then [rbuf] else []), rbuf, true)
    ∧ ringWorkerRun rcfg rbuf (.dequeueEmptyCtxDone :: res)
      = ((if 0 < rbuf.length then [rbuf] else []), rbuf, true) := by
  refine ⟨?_, ?_, ?_, ?_⟩ <;> rfl

/-- C8: a timer expiry with an empty buffer invokes the processor zero
times, leaves the worker accumulating, and reschedules the timer (via
`generateTimeout(0)` in the chan variant, the fixed `b.timeout` in the
ring variant). -/
theorem c8_empty_timer_noop {α : Type} (ccfg : ChanWorkerConfig)
    (rcfg : RingWorkerConfig) (j : Nat) :
    chanWorkerStep ccfg ([] : List α) (.timerFire j)
      = { buffer := [], flushed := [],
          timerReset := some (generateTimeout ccfg j 0), done := false }
    ∧ ringWorkerStep rcfg ([] : List α) .timerFire
      = { buffer := [], flushed := [],
          timerReset := some (rcfg.base : Int), done := false } := by
  constructor <;> rfl

/-- C1: a trace refuting the shutdown guarantee.  A worker of a
`ChanBatcherInstance` receives one item; `Stop()` is then called and
returns (its body — `cancel`, `Release`, `close` — performs no wait on
the worker, so it completes while the worker is still running); the
worker then observes cancellation and drains.  After `Stop()` has
returned the worker has not exited, and the drain flush — a Processor
invocation — happens after `Stop()` returned, contradicting the claim
that zero Processor invocations occur after `Stop()` returns. -/
theorem c1_processor_invocation_after_stop_returns :
    (chanSystemRun ⟨0, 1, 10, 100⟩
      (⟨[], false, false, false, false, []⟩ : ChanSystemState Nat)
      [.workerRecv 7 0, .stopCall]).stopReturned = true
    ∧ (chanSystemRun ⟨0, 1, 10, 100⟩
      (⟨[], false, false, false, false, []⟩ : ChanSystemState Nat)
      [.workerRecv 7 0, .stopCall]).workerDone = false
    ∧ (chanSystemRun ⟨0, 1, 10, 100⟩
      (⟨[], false, false, false, false, []⟩ : ChanSystemState Nat)
      [.workerRecv 7 0, .stopCall, .workerCtxDone]).flushes = [([7], true)] := by
  refine ⟨rfl, rfl, rfl⟩

/-- C2: calling `ChanBatcherInstance.Stop` a second time panics: the
first call closes the queue channel, and the second call's
`close(c.queue)` is a close of an already-closed channel, which panics
in Go — contradicting the claim that repeated `Stop()` calls never
panic. -/
theorem c2_second_stop_panics :
    (chanStop ⟨false, false, false⟩).bind chanStop
      = .error .closeOfClosedChannel := rfl

/-- C3: after `ChanBatcherInstance.Stop` has begun (the context is
cancelled) but with the queue channel still open and non-full, `Add`'s
`select` has both branches ready; when Go's random choice commits to the
send branch the item is enqueued and `Add` returns nil, contradicting
the claim that any `Add` after `Stop()` has begun errors and never
enqueues.  Once `Stop` has also closed the channel, the same choice
makes `Add` panic instead of returning an error. -/
theorem c3_add_after_stop_can_enqueue :
    chanAdd true ⟨[], 4, false⟩ (42 : Nat) .sendBranch
      = .enqueued ⟨[42], 4, false⟩
    ∧ chanAdd true ⟨[], 4, true⟩ (42 : Nat) .sendBranch
      = .panicked .sendOnClosedChannel := ⟨rfl, rfl⟩

/-- C5 counterexample: in the ring variant (`BatcherInstance.worker`),
a size-triggered flush of a full batch of 10 items resets the timer to
the fixed configured timeout (100), while the claimed jitter formula for
the corresponding worker (id 0 of a pool of 1, so even with the smallest
possible offset) yields `100 + 0 + j - 10 ∈ [90, 99]` for every
admissible jitter `j < base/10 = 10`; the ring variant therefore does
not recompute its deadline by the jitter function. -/
theorem c5_ring_variant_counterexample :
    (ringWorkerStep ⟨10, 100⟩ [1, 2, 3, 4, 5, 6, 7, 8, 9]
      (.dequeueOk (10 : Nat))).timerReset = some 100
    ∧ ¬ ∃ j : Fin 10, (100 : Int) = generateTimeout ⟨0, 1, 10, 100⟩ j.val 10 := by
  constructor
  · rfl
  · decide

/-- C5 (amended): only the chan variant reschedules via the jitter
function: after a size-triggered or timeout-triggered flush,
`ChanBatcherInstance.worker` resets its timer to
`generateTimeout(flushedBatchLen)` (the code's integer-division grouping
of `base + offset + jitter - batchFactor`), seeded by the length of the
batch just flushed; `BatcherInstance.worker` (ring variant) instead
resets the timer to the fixed configured timeout on both flush
triggers. -/
theorem c5_flush_reschedules_timer {α : Type} (ccfg : ChanWorkerConfig)
    (cbuf : List α) (x : α) (j : Nat) (rcfg : RingWorkerConfig)
    (rbuf : List α) (y : α)
    (hsize : ccfg.itemLimit ≤ cbuf.length + 1)
    (hne : 0 < cbuf.length)
    (hrsize : rcfg.itemLimit ≤ rbuf.length + 1) :
    (chanWorkerStep ccfg cbuf (.recv x j)).timerReset
      = some (generateTimeout ccfg j (cbuf.length + 1))
    ∧ (chanWorkerStep ccfg cbuf (.timerFire j)).timerReset
      = some (generateTimeout ccfg j cbuf.length)
    ∧ (ringWorkerStep rcfg rbuf (.dequeueOk y)).timerReset = some (rcfg.base : Int)
    ∧ (ringWorkerStep rcfg rbuf .timerFire).timerReset = some (rcfg.base : Int) := by
  refine ⟨?_, ?_, ?_, ?_⟩
  · simp only [chanWorkerStep, List.length_append, List.length_singleton]
    rw [if_pos (by simpa using hsize)]
  · simp only [chanWorkerStep]
    rw [if_pos hne]
  · simp only [ringWorkerStep, List.length_append, List.length_singleton]
    rw [if_pos (by simpa using hrsize)]
  · simp only [ringWorkerStep]
    split <;> rfl

/-- C5 witness: a chan worker (id 0 of 1, size threshold 2, base 100)
flushing after its second item reschedules via `generateTimeout` seeded
with 2, and a ring worker with the same threshold resets to its fixed
base 100. -/
theorem c5_flush_reschedules_timer_witness :
    (2 ≤ 2 ∧ 0 < 1 ∧ 2 ≤ 2)
    ∧ ((chanWorkerStep ⟨0, 1, 2, 100⟩ [1] (.recv (2 : Nat) 0)).timerReset
        = some (generateTimeout ⟨0, 1, 2, 100⟩ 0 2)
      ∧ (chanWorkerStep ⟨0, 1, 2, 100⟩ [1] (.timerFire 0)).timerReset
        = some (generateTimeout ⟨0, 1, 2, 100⟩ 0 1)
      ∧ (ringWorkerStep ⟨2, 100⟩ [1] (.dequeueOk (2 : Nat))).timerReset = some ((100 : Nat) : Int)
      ∧ (ringWorkerStep ⟨2, 100⟩ ([1] : List Nat) .timerFire).timerReset = some ((100 : Nat) : Int)) :=
  ⟨⟨by decide, by decide, by decide⟩,
    c5_flush_reschedules_timer ⟨0, 1, 2, 100⟩ [1] 2 0 ⟨2, 100⟩ [1] 2
      (by decide) (by decide) (by decide)⟩

/-- C6: the positive floor fails on the program's actual int64
arithmetic, which the code never clamps.  Worker id 1 of a pool of 2
with the accepted configuration `Timeout = 8e18` ns, threshold 10,
flushing a maximal batch of 10 with an admissible jitter draw of 0
(`0 < base/10`), recomputes its timeout to the wrapped negative value
`-8580077407042884950` ns: `base + offset` overflows int64.  And with
the accepted positive configuration `Timeout = 5` ns, every
recomputation panics, because `rnd.Int63n(int64(base)/10)` receives 0.
So the recomputed timeout is neither always positive nor above any
positive floor. -/
theorem c6_timeout_floor_fails_on_int64 :
    generateTimeoutGo ⟨1, 2, 10, 8000000000000000000⟩ 0 10
      = some (-8580077407042884950)
    ∧ (-8580077407042884950 : Int) < 0
    ∧ (0 : Nat) < 8000000000000000000 / 10
    ∧ generateTimeoutGo ⟨0, 1, 10, 5⟩ 0 10 = none := by
  refine ⟨by decide, by decide, by decide, by decide⟩

/-- One chan worker-loop iteration preserves the buffer bound: from a
buffer strictly below the size threshold it produces a buffer strictly
below the threshold, and every batch it hands to the processor has at
most threshold-many items. -/
theorem chanStep_bound {α : Type} (cfg : ChanWorkerConfig) (buf : List α)
    (e : ChanEvent α) (h : buf.length < cfg.itemLimit) :
    (chanWorkerStep cfg buf e).buffer.length < cfg.itemLimit
    ∧ ∀ b ∈ (chanWorkerStep cfg buf e).flushed, b.length ≤ cfg.itemLimit := by
  cases e <;> simp only [chanWorkerStep] <;> split_ifs <;>
    simp_all [List.length_append] <;> omega

/-- One ring worker-loop iteration preserves the buffer bound, with the
same statement as `chanStep_bound`. -/
theorem ringStep_bound {α : Type} (cfg : RingWorkerConfig) (buf : List α)
    (e : RingEvent α) (h : buf.length < cfg.itemLimit) :
    (ringWorkerStep cfg buf e).buffer.length < cfg.itemLimit
    ∧ ∀ b ∈ (ringWorkerStep cfg buf e).flushed, b.length ≤ cfg.itemLimit := by
  cases e <;> simp only [ringWorkerStep] <;> (try split_ifs) <;>
    (try simp_all [List.length_append]) <;> omega

/-- Over a whole chan worker execution from a buffer strictly below the
threshold, every batch handed to the processor has at most
threshold-many items and the final buffer stays below the threshold. -/
theorem chanRun_bound {α : Type} (cfg : ChanWorkerConfig) :
    ∀ (es : List (ChanEvent α)) (buf : List α), buf.length < cfg.itemLimit →
      (∀ b ∈ (chanWorkerRun cfg buf es).1, b.length ≤ cfg.itemLimit)
      ∧ (chanWorkerRun cfg buf es).2.1.length ≤ cfg.itemLimit := by
  intro es
  induction es with
  | nil =>
      intro buf h
      exact ⟨by intro b hb; simp [chanWorkerRun] at hb, by
        simpa [chanWorkerRun] using Nat.le_of_lt h⟩
  | cons e es ih =>
      intro buf h
      obtain ⟨h1, h2⟩ := chanStep_bound cfg buf e h
      simp only [chanWorkerRun]
      split
      · exact ⟨h2, Nat.le_of_lt h1⟩
      · obtain ⟨ih1, ih2⟩ := ih (chanWorkerStep cfg buf e).buffer h1
        refine ⟨?_, ih2⟩
        intro b hb
        rcases List.mem_append.1 hb with hb | hb
        · exact h2 b hb
        · exact ih1 b hb

/-- Over a whole ring worker execution from a buffer strictly below the
threshold, every batch handed to the processor has at most
threshold-many items and the final buffer stays below the threshold. -/
theorem ringRun_bound {α : Type} (cfg : RingWorkerConfig) :
    ∀ (es : List (RingEvent α)) (buf : List α), buf.length < cfg.itemLimit →
      (∀ b ∈ (ringWorkerRun cfg buf es).1, b.length ≤ cfg.itemLimit)
      ∧ (ringWorkerRun cfg buf es).2.1.length ≤ cfg.itemLimit := by
  intro es
  induction es with
  | nil =>
      intro buf h
      exact ⟨by intro b hb; simp [ringWorkerRun] at hb, by
        simpa [ringWorkerRun] using Nat.le_of_lt h⟩
  | cons e es ih =>
      intro buf h
      obtain ⟨h1, h2⟩ := ringStep_bound cfg buf e h
      simp only [ringWorkerRun]
      split
      · exact ⟨h2, Nat.le_of_lt h1⟩
      · obtain ⟨ih1, ih2⟩ := ih (ringWorkerStep cfg buf e).buffer h1
        refine ⟨?_, ih2⟩
        intro b hb
        rcases List.mem_append.1 hb with hb | hb
        · exact h2 b hb
        · exact ih1 b hb

/-- C10: for any positive size threshold and any event schedule, a
worker of either variant starting from an empty buffer keeps its local
buffer at (in fact strictly below, between iterations) the threshold,
and every batch handed to the processor — size-triggered,
timeout-triggered, or the shutdown remainder — has at most
threshold-many items. -/
theorem c10_batches_bounded {α β : Type} (ccfg : ChanWorkerConfig)
    (rcfg : RingWorkerConfig) (hc : 1 ≤ ccfg.itemLimit) (hr : 1 ≤ rcfg.itemLimit)
    (ces : List (ChanEvent α)) (res : List (RingEvent β)) :
    ((∀ b ∈ (chanWorkerRun ccfg ([] : List α) ces).1, b.length ≤ ccfg.itemLimit)
      ∧ (chanWorkerRun ccfg ([] : List α) ces).2.1.length ≤ ccfg.itemLimit)
    ∧ ((∀ b ∈ (ringWorkerRun rcfg ([] : List β) res).1, b.length ≤ rcfg.itemLimit)
      ∧ (ringWorkerRun rcfg ([] : List β) res).2.1.length ≤ rcfg.itemLimit) :=
  ⟨chanRun_bound ccfg ces [] hc, ringRun_bound rcfg res [] hr⟩

/-- C10 witness: with threshold 2, a chan worker over the schedule
(receive 5, receive 6, timer) and a ring worker over (dequeue 7, timer)
produce only batches of at most 2 items and end with buffers of at most
2 items. -/
theorem c10_batches_bounded_witness :
    (1 ≤ 2 ∧ 1 ≤ 2)
    ∧ (((∀ b ∈ (chanWorkerRun ⟨0, 1, 2, 100⟩ ([] : List Nat)
          [.recv 5 0, .recv 6 0, .timerFire 0]).1, b.length ≤ 2)
        ∧ (chanWorkerRun ⟨0, 1, 2, 100⟩ ([] : List Nat)
          [.recv 5 0, .recv 6 0, .timerFire 0]).2.1.length ≤ 2)
      ∧ ((∀ b ∈ (ringWorkerRun ⟨2, 100⟩ ([] : List Nat)
          [.dequeueOk 7, .timerFire]).1, b.length ≤ 2)
        ∧ (ringWorkerRun ⟨2, 100⟩ ([] : List Nat)
          [.dequeueOk 7, .timerFire]).2.1.length ≤ 2)) :=
  ⟨⟨by decide, by decide⟩,
    c10_batches_bounded ⟨0, 1, 2, 100⟩ ⟨2, 100⟩ (by decide) (by decide)
      [.recv 5 0, .recv 6 0, .timerFire 0] [.dequeueOk 7, .timerFire]⟩
